import Mathlib

/-
Shallow embedding of the resilient content-acquisition pipeline of the
style-guide-mcp-server repository, and proofs about its specification.

Components embedded (with their source locations):
* RateLimiter.isAllowed                  rate-limiting/index.ts
* ResourceManager                        rate-limiting/index.ts
* CircuitBreaker                         errors/index.ts
* RetryHandler                           errors/index.ts
* CachedHttpClient.fetch / fetchBatch    http/cached-client.ts
* MemoryManager.setCache / getCache      memory/memory-manager.ts

Times are modelled as integers (milliseconds, as produced by Date.now());
JS numbers that participate in fractional arithmetic are modelled as
rationals.  Promise-based control flow is modelled by explicit state
passing: the synchronous prefix of each async function (which JS runs
atomically, up to its first await) becomes one step function on the
component's state.
-/

/-! ### Sliding-window rate limiter (rate-limiting/index.ts, RateLimiter) -/

/-- Configuration consumed by RateLimiter.isAllowed (windowMs, maxRequests). -/
structure RateLimitConfig where
  windowMs : Nat
  maxRequests : Nat
deriving DecidableEq

/-- The result record returned by RateLimiter.isAllowed. -/
structure RateLimitResult where
  allowed : Bool
  remaining : Nat
  resetTime : Int
  retryAfter : Option Nat
deriving DecidableEq

/-- RateLimiter.isAllowed (rate-limiting/index.ts lines 71-117) for one
identifier: the stored timestamp list is filtered to those strictly inside
the trailing window, the request is allowed iff the filtered count is below
maxRequests, and only then is the current instant appended and the store
updated (on denial the stored list is left as it was).  remaining is
computed from the filtered (and possibly extended) working list;
retryAfter is Math.ceil(windowMs / 1000), written here as
(windowMs + 999) / 1000 in natural division; resetTime is now + windowMs.
Returns the result record and the new stored list for the identifier. -/
def isAllowed (cfg : RateLimitConfig) (now : Int) (stored : List Int) :
    RateLimitResult × List Int :=
  let windowStart : Int := now - (cfg.windowMs : Int)
  let ts := stored.filter (fun t => windowStart < t)
  let allowed := ts.length < cfg.maxRequests
  let tsLocal := if allowed then ts ++ [now] else ts
  let newStore := if allowed then ts ++ [now] else stored
  ({ allowed := allowed
     remaining := cfg.maxRequests - tsLocal.length
     resetTime := now + (cfg.windowMs : Int)
     retryAfter := if allowed then none else some ((cfg.windowMs + 999) / 1000) },
   newStore)

/-- n sequential calls to isAllowed at the same instant, returning the final
stored list and the list of allowed flags, in call order. -/
def isAllowedIter (cfg : RateLimitConfig) (now : Int) :
    Nat → List Int → List Int × List Bool
  | 0, store => (store, [])
  | n + 1, store =>
    let r := isAllowed cfg now store
    let rest := isAllowedIter cfg now n r.2
    (rest.1, r.1.allowed :: rest.2)

/-- The pruning rule exactly as the claim words it: drop only the timestamps
strictly older than now - W (a timestamp equal to now - W is retained).
Used solely to compare the claim's wording with the source's isAllowed. -/
def isAllowedClaimPrune (cfg : RateLimitConfig) (now : Int) (stored : List Int) :
    RateLimitResult × List Int :=
  let windowStart : Int := now - (cfg.windowMs : Int)
  let ts := stored.filter (fun t => windowStart ≤ t)
  let allowed := ts.length < cfg.maxRequests
  let tsLocal := if allowed then ts ++ [now] else ts
  let newStore := if allowed then ts ++ [now] else stored
  ({ allowed := allowed
     remaining := cfg.maxRequests - tsLocal.length
     resetTime := now + (cfg.windowMs : Int)
     retryAfter := if allowed then none else some ((cfg.windowMs + 999) / 1000) },
   newStore)

/-! ### Memory manager cache (memory/memory-manager.ts, MemoryManager) -/

/-- MemoryManager.maxCacheAge: 30 minutes in milliseconds. -/
def maxCacheAge : Nat := 30 * 60 * 1000

/-- The entry record MemoryManager.setCache stores in a named cache. -/
structure MemCacheEntry where
  data : String
  timestamp : Nat
  accessCount : Nat
  lastAccessed : Nat
  size : Nat
deriving DecidableEq

/-- The entry written by MemoryManager.setCache (memory-manager.ts lines
684-704) for one key: data, timestamp := now, accessCount := 0,
lastAccessed := now, size.  The ttl argument of setCache is received but
never stored and never read, exactly as in the source. -/
def setCacheEntry (now : Nat) (data : String) (size : Nat) (ttl : Nat) :
    MemCacheEntry :=
  ⟨data, now, 0, now, size⟩

/-- MemoryManager.getCache (memory-manager.ts lines 706-724) for one key:
absent entry gives null; an entry whose age exceeds the fixed maxCacheAge
(never the ttl passed to setCache) is deleted and null is returned;
otherwise access statistics are updated and the data returned.  Returns
the lookup result and the entry's new state (none = deleted/absent). -/
def getCache (now : Nat) (entry : Option MemCacheEntry) :
    Option String × Option MemCacheEntry :=
  match entry with
  | none => (none, none)
  | some e =>
    if maxCacheAge < now - e.timestamp then (none, none)
    else (some e.data,
          some { e with accessCount := e.accessCount + 1, lastAccessed := now })

/-! ### Cached HTTP client (http/cached-client.ts, CachedHttpClient)

The client is modelled for one fixed URL (equivalently, one cache key: the
key is an injective hash of the URL).  Its per-key state holds the
in-memory cache entry, the durable cache file, the activeRequests entry
(the in-flight request table is a Map keyed by cache key, so per key it is
an Option), a counter issuing request identities, and the running count of
transport calls made for this key.  fetch's synchronous prefix - the
deduplication check, the cache check with expiry deletion, and the
registration of a new in-flight request - runs without any intervening
await in the source, so it is one atomic step here. -/

/-- One durable / in-memory cache entry of CachedHttpClient (data and the
timestamp at which it was written). -/
structure CacheEntry where
  data : String
  timestamp : Nat
deriving DecidableEq

/-- Per-key state of CachedHttpClient. -/
structure ClientState where
  cache : Option CacheEntry
  diskCache : Option CacheEntry
  activeRequest : Option Nat
  nextRequestId : Nat
  transportCalls : Nat
deriving DecidableEq

/-- What one caller of fetch observes from the synchronous prefix:
it joined an already in-flight request, it was served from a fresh cache
entry with the stored payload, or it registered a new in-flight request
(performing a transport call). -/
inductive FetchStep where
  | joined (id : Nat)
  | servedFromCache (data : String)
  | startedTransport (id : Nat)
deriving DecidableEq

/-- Registration of a new in-flight request: performRequest is started
(one transport call) and its promise is stored in activeRequests
(cached-client.ts lines 263-267). -/
def startRequest (s : ClientState) : ClientState × FetchStep :=
  ({ s with activeRequest := some s.nextRequestId
            nextRequestId := s.nextRequestId + 1
            transportCalls := s.transportCalls + 1 },
   .startedTransport s.nextRequestId)

/-- The synchronous prefix of CachedHttpClient.fetch (cached-client.ts
lines 224-267) for one caller arriving at time now: if an in-flight
request exists for the key, the caller awaits it (deduplication); else if
caching is enabled and a cache entry exists, it is served when its age is
strictly below ttl and otherwise deleted from both the in-memory map and
the on-disk cache file before the miss path; on a miss a new in-flight
request is registered. -/
def fetchArrive (cachingEnabled : Bool) (ttl now : Nat) (s : ClientState) :
    ClientState × FetchStep :=
  match s.activeRequest with
  | some id => (s, .joined id)
  | none =>
    match s.cache with
    | some e =>
      if cachingEnabled then
        if now - e.timestamp < ttl then (s, .servedFromCache e.data)
        else startRequest { s with cache := none, diskCache := none }
      else startRequest s
    | none => startRequest s

/-- Settlement of the in-flight request on success (cached-client.ts lines
269-307): the payload is written to the in-memory and durable caches when
caching is enabled, and the activeRequests entry is removed. -/
def settleSuccess (cachingEnabled : Bool) (now : Nat) (data : String)
    (s : ClientState) : ClientState :=
  let s := if cachingEnabled
    then { s with cache := some ⟨data, now⟩, diskCache := some ⟨data, now⟩ }
    else s
  { s with activeRequest := none }

/-- Settlement of the in-flight request on failure: the activeRequests
entry is removed unconditionally (the finally block of fetch). -/
def settleFailure (s : ClientState) : ClientState :=
  { s with activeRequest := none }

/-- k further callers arriving (in sequence, each running its atomic
synchronous prefix) before any settlement; returns the final state and
each caller's observation in arrival order. -/
def fetchArrivals (cachingEnabled : Bool) (ttl now : Nat) :
    Nat → ClientState → ClientState × List FetchStep
  | 0, s => (s, [])
  | k + 1, s =>
    let r := fetchArrive cachingEnabled ttl now s
    let rest := fetchArrivals cachingEnabled ttl now k r.1
    (rest.1, r.2 :: rest.2)

/-- The payload a caller ultimately receives: joiners and the starter both
await the transport request they hold the id of (transportResult gives the
payload each transport request resolves with); a cache hit yields the
stored data. -/
def callerPayload (transportResult : Nat → String) : FetchStep → String
  | .joined id => transportResult id
  | .servedFromCache d => d
  | .startedTransport id => transportResult id

/-- Number of in-flight request entries the table holds for the key. -/
def inFlightCount (s : ClientState) : Nat :=
  match s.activeRequest with
  | some _ => 1
  | none => 0

/-! ### Batch fetching (cached-client.ts, CachedHttpClient.fetchBatch) -/

/-- The worker-slot array fetchBatch initializes:
new Array(concurrency).fill(null) (cached-client.ts line 327). -/
def initialSemaphore (concurrency : Nat) : List (Option Nat) :=
  List.replicate concurrency none

/-- The candidate list each fetchWithSemaphore builds for Promise.race:
semaphore.filter(p => p !== null) (cached-client.ts line 331).
Promise.race over an empty candidate list never settles. -/
def raceCandidates (sem : List (Option Nat)) : List Nat :=
  sem.filterMap id

/-- The per-URL recording done by fetchBatch's try/catch (cached-client.ts
lines 340-346), given each URL's fetch outcome (some payload on success,
none on failure): a success is recorded as its payload and a failure is
recorded as the empty string - the URL is set in the result map in both
cases, never omitted, and no exception escapes. -/
def fetchBatchResults (outcomes : List (String × Option String)) :
    List (String × String) :=
  outcomes.map (fun uo => (uo.1, uo.2.getD ""))

/-- A 10-source batch in which exactly the last source fails. -/
def exBatch10 : List (String × Option String) :=
  [("u0", some "d0"), ("u1", some "d1"), ("u2", some "d2"),
   ("u3", some "d3"), ("u4", some "d4"), ("u5", some "d5"),
   ("u6", some "d6"), ("u7", some "d7"), ("u8", some "d8"),
   ("u9", none)]

/-! ### Resource manager (rate-limiting/index.ts, ResourceManager) -/

/-- The ceilings returned by ResourceManager.getResourceLimits that
admission control consults (rate-limiting/index.ts lines 240-248):
maxMemoryUsage 512 MB, maxConcurrentOperations 100. -/
structure ResourceLimit where
  maxMemoryUsage : ℚ
  maxConcurrentOperations : Nat
deriving DecidableEq

/-- ResourceManager.getResourceLimits. -/
def getResourceLimits : ResourceLimit :=
  { maxMemoryUsage := 512, maxConcurrentOperations := 100 }

/-- The slice of ResourceMetrics that checkResourceAvailability reads. -/
structure ResourceMetrics where
  memoryUsage : ℚ
  concurrentOperations : Nat
deriving DecidableEq

/-- ResourceManager state: the live set of active operation ids (modelled
by its size) and the metrics snapshot, which is refreshed only by the
periodic updateMetrics, not synchronously by operation start or end. -/
structure ResourceManagerState where
  activeOperations : Nat
  metrics : ResourceMetrics
deriving DecidableEq

/-- ResourceManager.updateMetrics (rate-limiting/index.ts lines 209-218),
run every 5 seconds: copies the current heap usage (in MB) and the current
size of the active-operation set into the metrics snapshot. -/
def updateMetrics (s : ResourceManagerState) (heapUsedMB : ℚ) :
    ResourceManagerState :=
  { s with metrics :=
      { memoryUsage := heapUsedMB, concurrentOperations := s.activeOperations } }

/-- ResourceManager.checkResourceAvailability (rate-limiting/index.ts lines
250-274): rejects when the snapshot memory usage strictly exceeds the
memory ceiling, or when the snapshot concurrent-operation count has
reached the concurrency ceiling; admits otherwise. -/
def checkResourceAvailability (s : ResourceManagerState) : Bool :=
  if s.metrics.memoryUsage > getResourceLimits.maxMemoryUsage then false
  else if s.metrics.concurrentOperations ≥ getResourceLimits.maxConcurrentOperations
    then false
  else true

/-- executeWithResourceLimit adds a fresh operation id to the active set
after admission (rate-limiting/index.ts line 293). -/
def beginOperation (s : ResourceManagerState) : ResourceManagerState :=
  { s with activeOperations := s.activeOperations + 1 }

/-- The finally block of executeWithResourceLimit removes the operation id
from the active set when the operation settles (line 327).  The metrics
snapshot is not touched. -/
def completeOperation (s : ResourceManagerState) : ResourceManagerState :=
  { s with activeOperations := s.activeOperations - 1 }

/-! ### Circuit breaker (errors/index.ts, CircuitBreaker) -/

/-- The three circuit states. -/
inductive CircuitState where
  | CLOSED
  | OPEN
  | HALF_OPEN
deriving DecidableEq

/-- CircuitBreaker configuration fields used by execute. -/
structure CircuitBreakerConfig where
  failureThreshold : Nat
  resetTimeout : Nat
deriving DecidableEq

/-- The mutable fields of CircuitBreaker. -/
structure CircuitBreakerState where
  state : CircuitState
  failureCount : Nat
  successCount : Nat
  lastFailureTime : Option Nat
deriving DecidableEq

/-- CircuitBreaker.shouldAttemptReset (errors/index.ts lines 213-220). -/
def shouldAttemptReset (cfg : CircuitBreakerConfig) (cb : CircuitBreakerState)
    (now : Nat) : Bool :=
  match cb.lastFailureTime with
  | none => false
  | some t => cfg.resetTimeout ≤ now - t

/-- CircuitBreaker.onSuccess (errors/index.ts lines 160-178): failureCount
is reset to zero; in HALF_OPEN the success counter is incremented and on
reaching 3 the breaker closes and the counter resets. -/
def onSuccess (cb : CircuitBreakerState) : CircuitBreakerState :=
  let cb := { cb with failureCount := 0 }
  if cb.state = CircuitState.HALF_OPEN then
    if 3 ≤ cb.successCount + 1 then
      { cb with state := CircuitState.CLOSED, successCount := 0 }
    else { cb with successCount := cb.successCount + 1 }
  else cb

/-- CircuitBreaker.onFailure (errors/index.ts lines 180-211): failureCount
is incremented and lastFailureTime recorded; a failure in HALF_OPEN opens
the breaker and resets the success counter; otherwise the breaker opens
once failureCount reaches the threshold. -/
def onFailure (cfg : CircuitBreakerConfig) (cb : CircuitBreakerState)
    (now : Nat) : CircuitBreakerState :=
  let cb := { cb with failureCount := cb.failureCount + 1
                      lastFailureTime := some now }
  if cb.state = CircuitState.HALF_OPEN then
    { cb with state := CircuitState.OPEN, successCount := 0 }
  else if cfg.failureThreshold ≤ cb.failureCount then
    { cb with state := CircuitState.OPEN }
  else cb

/-- Whether the call through the breaker was rejected without invoking the
operation, or attempted (and whether the attempt succeeded). -/
inductive CBExecResult where
  | rejectedOpen
  | attempted (succeeded : Bool)
deriving DecidableEq

/-- CircuitBreaker.execute (errors/index.ts lines 130-158): when OPEN and
the reset timeout has not elapsed since the last failure, the call fails
immediately without invoking the operation; when OPEN and it has elapsed,
the breaker moves to HALF_OPEN and the operation is attempted; otherwise
the operation is attempted, and its outcome drives onSuccess/onFailure.
opSucceeds tells whether the underlying operation would succeed if
invoked; in the rejection branch it is not consulted. -/
def cbExecute (cfg : CircuitBreakerConfig) (cb : CircuitBreakerState)
    (now : Nat) (opSucceeds : Bool) : CircuitBreakerState × CBExecResult :=
  if cb.state = CircuitState.OPEN ∧ ¬ shouldAttemptReset cfg cb now then
    (cb, .rejectedOpen)
  else
    let cb1 := if cb.state = CircuitState.OPEN
      then { cb with state := CircuitState.HALF_OPEN } else cb
    if opSucceeds then (onSuccess cb1, .attempted true)
    else (onFailure cfg cb1 now, .attempted false)

/-! ### Retry handler (errors/index.ts, RetryHandler) -/

/-- The error taxonomy of errors/index.ts. -/
inductive ErrorType where
  | VALIDATION
  | AUTHENTICATION
  | AUTHORIZATION
  | NOT_FOUND
  | RATE_LIMIT
  | EXTERNAL_SERVICE
  | DATABASE
  | NETWORK
  | TIMEOUT
  | INTERNAL
  | BUSINESS
deriving DecidableEq

/-- An error as RetryHandler.shouldRetry inspects it: an EnterpriseError
carries its type and retryable flag; any other error carries its code and
name properties. -/
inductive JsError where
  | enterprise (etype : ErrorType) (retryable : Bool)
  | generic (code : String) (ename : String)
deriving DecidableEq

/-- The retryableErrors default of RetryHandler (errors/index.ts lines
257-262). -/
def defaultRetryableErrors : List ErrorType :=
  [.NETWORK, .TIMEOUT, .EXTERNAL_SERVICE, .DATABASE]

/-- RetryHandler configuration. -/
structure RetryConfig where
  maxAttempts : Nat
  baseDelay : ℚ
  maxDelay : ℚ
  backoffMultiplier : ℚ
  retryableErrors : List ErrorType
  jitter : Bool

/-- The RetryHandler default configuration (errors/index.ts lines 252-264). -/
def defaultRetryConfig : RetryConfig :=
  { maxAttempts := 3, baseDelay := 1000, maxDelay := 30000
    backoffMultiplier := 2, retryableErrors := defaultRetryableErrors
    jitter := true }

/-- RetryHandler.shouldRetry (errors/index.ts lines 326-336): an
EnterpriseError is retried iff its type is in retryableErrors and its
retryable flag is set; other errors are retried on connection-reset,
connection-refused, timed-out codes or a TimeoutError name. -/
def shouldRetry (cfg : RetryConfig) : JsError → Bool
  | .enterprise etype retryable => cfg.retryableErrors.contains etype && retryable
  | .generic code ename =>
    code == "ECONNRESET" || code == "ECONNREFUSED" || code == "ETIMEDOUT" ||
      ename == "TimeoutError"

/-- RetryHandler.calculateDelay (errors/index.ts lines 338-349): the
exponential delay base * multiplier ^ (attempt - 1) clamped at maxDelay;
with jitter enabled, delay * 0.25 * (2r - 1) is added for the random draw
r in the unit interval; the result is floored. -/
def calculateDelay (cfg : RetryConfig) (attempt : Nat) (r : ℚ) : Int :=
  let delay := cfg.baseDelay * cfg.backoffMultiplier ^ (attempt - 1)
  let delay := min delay cfg.maxDelay
  let delay := if cfg.jitter then delay + delay * (1/4) * (2 * r - 1) else delay
  Int.floor delay

/-- The pre-jitter delay of attempt a: the value calculateDelay holds just
before the jitter step. -/
def preJitterDelay (cfg : RetryConfig) (attempt : Nat) : ℚ :=
  min (cfg.baseDelay * cfg.backoffMultiplier ^ (attempt - 1)) cfg.maxDelay

/-- RetryHandler.execute's attempt loop (errors/index.ts lines 268-324)
from a given attempt number with the given remaining fuel (the number of
loop iterations still permitted; the loop runs attempts 1..maxAttempts, so
fuel is positive whenever attempt ≤ maxAttempts and the fuel-0 case is
unreachable from retryExecute).  op gives each attempt's outcome and rand
each attempt's jitter draw.  On success the result is returned; on failure
the loop rethrows immediately - with no sleep - when the attempt ceiling
is reached or shouldRetry rejects the error; otherwise it sleeps for
calculateDelay and retries.  Returns the final outcome, the last attempt
number executed, and the list of backoff sleeps performed. -/
def retryExecuteFrom {α : Type} (cfg : RetryConfig)
    (op : Nat → Except JsError α) (rand : Nat → ℚ) :
    Nat → Nat → Except JsError α × Nat × List Int
  | attempt, 0 => (op attempt, attempt, [])
  | attempt, fuel + 1 =>
    match op attempt with
    | .ok v => (.ok v, attempt, [])
    | .error e =>
      if attempt = cfg.maxAttempts then (.error e, attempt, [])
      else if shouldRetry cfg e then
        let d := calculateDelay cfg attempt (rand attempt)
        let rest := retryExecuteFrom cfg op rand (attempt + 1) fuel
        (rest.1, rest.2.1, d :: rest.2.2)
      else (.error e, attempt, [])

/-- RetryHandler.execute: the loop started at attempt 1. -/
def retryExecute {α : Type} (cfg : RetryConfig)
    (op : Nat → Except JsError α) (rand : Nat → ℚ) :
    Except JsError α × Nat × List Int :=
  retryExecuteFrom cfg op rand 1 cfg.maxAttempts

/-- The circuit-open error as CircuitBreaker.execute throws it
(errors/index.ts lines 139-146): type EXTERNAL_SERVICE, retryable false. -/
def circuitOpenError : JsError := .enterprise .EXTERNAL_SERVICE false

/-- The rate-limited error as RateLimitMiddleware throws it
(rate-limiting/index.ts lines 390-397): type RATE_LIMIT, retryable false. -/
def rateLimitedError : JsError := .enterprise .RATE_LIMIT false

/-- The resource-exhausted error as executeWithResourceLimit's admission
check throws it (rate-limiting/index.ts lines 282-289): type RATE_LIMIT,
retryable false. -/
def resourceExhaustedError : JsError := .enterprise .RATE_LIMIT false

/-- The operation-timeout error as executeWithResourceLimit's timeout race
throws it (rate-limiting/index.ts lines 303-310): type TIMEOUT, retryable
false. -/
def operationTimeoutError : JsError := .enterprise .TIMEOUT false

/-- The retry configuration named by the backoff claim: baseDelay 1000,
multiplier 2, maxDelay 10000. -/
def backoffTestConfig : RetryConfig :=
  { maxAttempts := 3, baseDelay := 1000, maxDelay := 10000
    backoffMultiplier := 2, retryableErrors := defaultRetryableErrors
    jitter := true }

/-! ### Helper lemmas (shared) -/

/-- Filtering a constant list keeps all of it or none of it. -/
theorem filter_replicate_eval {α : Type} (n : Nat) (a : α) (p : α → Bool) :
    (List.replicate n a).filter p = if p a then List.replicate n a else [] := by
  induction n with
  | zero => simp
  | succ k ih =>
    simp only [List.replicate_succ, List.filter_cons, ih]
    cases h : p a <;> simp [h]

/-- Natural ceiling division by 1000, as Math.ceil(W / 1000) computes it,
equals the (W + 999) / 1000 closed form. -/
theorem natCeilDiv_thousand (W : Nat) : (W + 999) / 1000 = ⌈(W : ℚ) / 1000⌉₊ := by
  have h1 : ⌈(W : ℚ) / 1000⌉₊ ≤ (W + 999) / 1000 := by
    rw [Nat.ceil_le, div_le_iff₀ (by norm_num)]
    have hn : W ≤ ((W + 999) / 1000) * 1000 := by omega
    exact_mod_cast hn
  have h2 : (W + 999) / 1000 ≤ ⌈(W : ℚ) / 1000⌉₊ := by
    have hc : (W : ℚ) / 1000 ≤ (⌈(W : ℚ) / 1000⌉₊ : ℚ) := Nat.le_ceil _
    rw [div_le_iff₀ (by norm_num)] at hc
    have hn : W ≤ ⌈(W : ℚ) / 1000⌉₊ * 1000 := by exact_mod_cast hc
    omega
  omega

/-- A burst of k sequential isAllowed calls at one instant, starting from a
store of i copies of that instant, all get admitted while the total stays
within maxRequests, each appending the instant to the store. -/
theorem isAllowedIter_burst (cfg : RateLimitConfig) (t0 : Int)
    (hW : 0 < cfg.windowMs) :
    ∀ (k i : Nat), i + k ≤ cfg.maxRequests →
      isAllowedIter cfg t0 k (List.replicate i t0) =
        (List.replicate (i + k) t0, List.replicate k true) := by
  intro k
  induction k with
  | zero => intro i h; simp [isAllowedIter]
  | succ n ih =>
    intro i h
    have hkeep : t0 - (cfg.windowMs : Int) < t0 := by omega
    have hfil : (List.replicate i t0).filter
        (fun t => decide (t0 - (cfg.windowMs : Int) < t)) = List.replicate i t0 := by
      rw [filter_replicate_eval]
      simp [hkeep]
    have hallow : i < cfg.maxRequests := by omega
    have hstep : isAllowed cfg t0 (List.replicate i t0) =
        ({ allowed := true
           remaining := cfg.maxRequests - (i + 1)
           resetTime := t0 + (cfg.windowMs : Int)
           retryAfter := none }, List.replicate (i + 1) t0) := by
      simp only [isAllowed, hfil, List.length_replicate]
      simp [hallow, List.replicate_succ']
    simp only [isAllowedIter, hstep]
    rw [ih (i + 1) (by omega)]
    have : i + 1 + n = i + (n + 1) := by omega
    rw [this]
    simp [List.replicate_succ]

/-! ### Claim C6 - rate limiter sliding window -/

/-- C6 (counterexample to the claim as stated): with window 100 and limit
1, a recorded timestamp sitting exactly at now - W is dropped by the
source's pruning (which keeps only timestamps strictly newer than
now - W), so the call is allowed and now is appended - whereas the claim's
pruning rule, which drops only timestamps strictly older than now - W,
would retain it and deny the call. -/
theorem rateLimiter_boundary_counterexample_c6 :
    (isAllowed ⟨100, 1⟩ 100 [0]).1.allowed = true ∧
    (isAllowed ⟨100, 1⟩ 100 [0]).2 = [100] ∧
    (isAllowedClaimPrune ⟨100, 1⟩ 100 [0]).1.allowed = false := by
  decide

/-- C6 (amended): each isAllowed call prunes the timestamps that are not
strictly newer than now - W (so a timestamp exactly at now - W is dropped
too), allows the request iff the pruned count is strictly below
maxRequests, and appends the current instant (persisting the pruned list)
exactly when allowed, leaving the stored list unchanged on denial.
Consequently N requests issued at one instant are all admitted, one more
request strictly within the window is denied, and a request issued once
the full window has elapsed is allowed. -/
theorem rateLimiter_sliding_window_c6 (N W : Nat) (t0 t1 t2 : Int)
    (hN : 0 < N) (h01 : t0 ≤ t1) (h1 : t1 < t0 + (W : Int))
    (h2 : t0 + (W : Int) ≤ t2) :
    isAllowedIter ⟨W, N⟩ t0 N [] = (List.replicate N t0, List.replicate N true) ∧
    (isAllowed ⟨W, N⟩ t1 (List.replicate N t0)).1.allowed = false ∧
    (isAllowed ⟨W, N⟩ t1 (List.replicate N t0)).2 = List.replicate N t0 ∧
    (isAllowed ⟨W, N⟩ t2 (List.replicate N t0)).1.allowed = true ∧
    (isAllowed ⟨W, N⟩ t2 (List.replicate N t0)).2 = [t2] ∧
    (∀ (now : Int) (ts : List Int),
      (isAllowed ⟨W, N⟩ now ts).1.allowed =
        decide ((ts.filter (fun t => decide (now - (W : Int) < t))).length < N)) ∧
    (∀ (now : Int) (ts : List Int), (isAllowed ⟨W, N⟩ now ts).1.allowed = false →
      (isAllowed ⟨W, N⟩ now ts).2 = ts) ∧
    (∀ (now : Int) (ts : List Int), (isAllowed ⟨W, N⟩ now ts).1.allowed = true →
      (isAllowed ⟨W, N⟩ now ts).2 =
        ts.filter (fun t => decide (now - (W : Int) < t)) ++ [now]) := by
  have hW : 0 < W := by
    by_contra hc
    have : W = 0 := by omega
    subst this
    simp at h1
    omega
  refine ⟨?_, ?_, ?_, ?_, ?_, ?_, ?_, ?_⟩
  · have h := isAllowedIter_burst ⟨W, N⟩ t0 hW N 0 (by simp)
    simpa using h
  · have hkeep : t1 - (W : Int) < t0 := by omega
    have hfil : (List.replicate N t0).filter
        (fun t => decide (t1 - (W : Int) < t)) = List.replicate N t0 := by
      rw [filter_replicate_eval]; simp [hkeep]
    simp [isAllowed, hfil]
  · have hkeep : t1 - (W : Int) < t0 := by omega
    have hfil : (List.replicate N t0).filter
        (fun t => decide (t1 - (W : Int) < t)) = List.replicate N t0 := by
      rw [filter_replicate_eval]; simp [hkeep]
    simp [isAllowed, hfil]
  · have hdrop : ¬ (t2 - (W : Int) < t0) := by omega
    have hfil : (List.replicate N t0).filter
        (fun t => decide (t2 - (W : Int) < t)) = [] := by
      rw [filter_replicate_eval]; simp [hdrop]
    simp [isAllowed, hfil, hN]
  · have hdrop : ¬ (t2 - (W : Int) < t0) := by omega
    have hfil : (List.replicate N t0).filter
        (fun t => decide (t2 - (W : Int) < t)) = [] := by
      rw [filter_replicate_eval]; simp [hdrop]
    simp [isAllowed, hfil, hN]
  · intro now ts
    simp [isAllowed]
  · intro now ts hdenied
    simp only [isAllowed] at hdenied ⊢
    simp only [decide_eq_false_iff_not] at hdenied
    simp [hdenied]
  · intro now ts hyes
    simp only [isAllowed] at hyes ⊢
    simp only [decide_eq_true_eq] at hyes
    simp [hyes]

/-- C6 witness: window 60000 ms, limit 3, burst at t = 0; a fourth request
at t = 30000 is denied and one at t = 60000 is allowed. -/
theorem rateLimiter_sliding_window_c6_witness :
    isAllowedIter ⟨60000, 3⟩ 0 3 [] =
      (List.replicate 3 (0 : Int), List.replicate 3 true) ∧
    (isAllowed ⟨60000, 3⟩ 30000 (List.replicate 3 (0 : Int))).1.allowed = false ∧
    (isAllowed ⟨60000, 3⟩ 60000 (List.replicate 3 (0 : Int))).1.allowed = true := by
  have h := rateLimiter_sliding_window_c6 3 60000 0 30000 60000
    (by decide) (by decide) (by decide) (by decide)
  exact ⟨h.1, h.2.1, h.2.2.2.1⟩

/-! ### Claim C10 - denied calls return the full window as retryAfter -/

/-- C10: every isAllowed call returns resetTime = now + windowMs; a denied
call returns retryAfter = ceil(windowMs / 1000) - the full window in
seconds, independent of the stored timestamps - and an allowed call
returns no retryAfter. -/
theorem rateLimiter_retryAfter_c10 (cfg : RateLimitConfig) (now : Int)
    (ts : List Int) :
    (isAllowed cfg now ts).1.resetTime = now + (cfg.windowMs : Int) ∧
    ((isAllowed cfg now ts).1.allowed = false →
      (isAllowed cfg now ts).1.retryAfter = some ⌈(cfg.windowMs : ℚ) / 1000⌉₊) ∧
    ((isAllowed cfg now ts).1.allowed = true →
      (isAllowed cfg now ts).1.retryAfter = none) := by
  refine ⟨by simp [isAllowed], ?_, ?_⟩
  · intro hdenied
    simp only [isAllowed, decide_eq_false_iff_not] at hdenied ⊢
    simp [hdenied, natCeilDiv_thousand]
  · intro hyes
    simp only [isAllowed, decide_eq_true_eq] at hyes ⊢
    simp [hyes]

/-- C10 witness: with a 60000 ms window and limit 1, a denied call returns
retryAfter = 60 seconds and resetTime = now + 60000; an allowed call
returns no retryAfter. -/
theorem rateLimiter_retryAfter_c10_witness :
    (isAllowed ⟨60000, 1⟩ 100 [50]).1.retryAfter = some 60 ∧
    (isAllowed ⟨60000, 1⟩ 100 [50]).1.resetTime = 60100 ∧
    (isAllowed ⟨60000, 1⟩ 100 []).1.retryAfter = none := by
  have h1 := rateLimiter_retryAfter_c10 ⟨60000, 1⟩ 100 [50]
  have h2 := rateLimiter_retryAfter_c10 ⟨60000, 1⟩ 100 []
  refine ⟨?_, by simpa using h1.1, h2.2.2 (by decide)⟩
  rw [h1.2.1 (by decide)]
  norm_num

/-! ### Claim C1 - in-flight request deduplication -/

/-- Arrivals that find an in-flight request leave the client state
untouched and all join that request. -/
theorem fetchArrivals_joined (cachingEnabled : Bool) (ttl now : Nat)
    (s : ClientState) (id : Nat) (hact : s.activeRequest = some id) :
    ∀ k, fetchArrivals cachingEnabled ttl now k s =
      (s, List.replicate k (.joined id)) := by
  intro k
  induction k with
  | zero => simp [fetchArrivals]
  | succ n ih =>
    simp [fetchArrivals, fetchArrive, hact, ih, List.replicate_succ]

/-- C1: starting from a key with no cache entry and no in-flight request,
the first of k + 1 fetch callers registers the single in-flight request
(request 0) and performs the only transport call; every later caller that
arrives before it settles joins request 0 without touching the state, so
all k + 1 callers await the same request and hence receive the same
payload (whatever payload transport request 0 resolves with), and the
in-flight table never holds more than the one entry for the key. -/
theorem fetch_dedup_c1 (cachingEnabled : Bool) (ttl now : Nat) (k : Nat)
    (transportResult : Nat → String) :
    (fetchArrivals cachingEnabled ttl now (k + 1)
        ⟨none, none, none, 0, 0⟩).1.transportCalls = 1 ∧
    (fetchArrivals cachingEnabled ttl now (k + 1)
        ⟨none, none, none, 0, 0⟩).1.activeRequest = some 0 ∧
    (fetchArrivals cachingEnabled ttl now (k + 1) ⟨none, none, none, 0, 0⟩).2 =
      FetchStep.startedTransport 0 :: List.replicate k (.joined 0) ∧
    ((fetchArrivals cachingEnabled ttl now (k + 1)
        ⟨none, none, none, 0, 0⟩).2.map (callerPayload transportResult)) =
      List.replicate (k + 1) (transportResult 0) ∧
    (fetchArrivals cachingEnabled ttl now (k + 1) ⟨none, none, none, 0, 0⟩).1 =
      (fetchArrive cachingEnabled ttl now ⟨none, none, none, 0, 0⟩).1 ∧
    inFlightCount (fetchArrivals cachingEnabled ttl now (k + 1)
        ⟨none, none, none, 0, 0⟩).1 ≤ 1 := by
  have hfirst : fetchArrive cachingEnabled ttl now ⟨none, none, none, 0, 0⟩ =
      (⟨none, none, some 0, 1, 1⟩, .startedTransport 0) := by
    cases cachingEnabled <;> rfl
  have hrest := fetchArrivals_joined cachingEnabled ttl now
    ⟨none, none, some 0, 1, 1⟩ 0 rfl k
  have hall : fetchArrivals cachingEnabled ttl now (k + 1)
      ⟨none, none, none, 0, 0⟩ =
      (⟨none, none, some 0, 1, 1⟩,
        FetchStep.startedTransport 0 :: List.replicate k (.joined 0)) := by
    simp [fetchArrivals, hfirst, hrest]
  rw [hall, hfirst]
  refine ⟨rfl, rfl, rfl, ?_, rfl, by simp [inFlightCount]⟩
  simp [callerPayload, List.replicate_succ, List.map_replicate]

/-! ### Claim C2 - durable cache freshness -/

/-- C2 (counterexample to the claim as stated): with TTL = 100, an entry
written at t0 = 0 and fetched at t1 = 100 satisfies the claim's serving
condition t1 - t0 ≤ TTL, yet fetch does not serve it: the source's hit
test is the strict cacheAge < ttl, so at age exactly TTL the entry is
deleted and a transport request is started instead. -/
theorem fetch_cache_boundary_counterexample_c2 :
    (100 : Nat) - 0 ≤ 100 ∧
    (fetchArrive true 100 100
        ⟨some ⟨"payload", 0⟩, some ⟨"payload", 0⟩, none, 0, 0⟩).2 =
      FetchStep.startedTransport 0 ∧
    (fetchArrive true 100 100
        ⟨some ⟨"payload", 0⟩, some ⟨"payload", 0⟩, none, 0, 0⟩).1.cache = none := by
  decide

/-- C2 (amended): with caching enabled and no request in flight, a cache
entry written at t0 is served at t1 - without any transport call and
without touching the state - iff its age t1 - t0 is strictly below the
TTL; when the age is at least the TTL the entry is deleted from both the
in-memory map and the on-disk cache file before the miss is processed, so
an expired entry is never served and the miss starts a fresh transport
request. -/
theorem fetch_cache_freshness_c2 (ttl t0 t1 : Nat) (d : String)
    (disk : Option CacheEntry) (nid tc : Nat) :
    (t1 - t0 < ttl →
      fetchArrive true ttl t1 ⟨some ⟨d, t0⟩, disk, none, nid, tc⟩ =
        (⟨some ⟨d, t0⟩, disk, none, nid, tc⟩, .servedFromCache d)) ∧
    (ttl ≤ t1 - t0 →
      fetchArrive true ttl t1 ⟨some ⟨d, t0⟩, disk, none, nid, tc⟩ =
        (⟨none, none, some nid, nid + 1, tc + 1⟩, .startedTransport nid)) := by
  constructor
  · intro hfresh
    simp [fetchArrive, hfresh]
  · intro hstale
    have : ¬ (t1 - t0 < ttl) := by omega
    simp [fetchArrive, this, startRequest]

/-- C2 witness: TTL 100; an entry written at t0 = 0 is served at t1 = 99
and is deleted (memory and disk) with a transport started at t1 = 100. -/
theorem fetch_cache_freshness_c2_witness :
    fetchArrive true 100 99 ⟨some ⟨"d", 0⟩, some ⟨"d", 0⟩, none, 5, 7⟩ =
      (⟨some ⟨"d", 0⟩, some ⟨"d", 0⟩, none, 5, 7⟩, .servedFromCache "d") ∧
    fetchArrive true 100 100 ⟨some ⟨"d", 0⟩, some ⟨"d", 0⟩, none, 5, 7⟩ =
      (⟨none, none, some 5, 6, 8⟩, .startedTransport 5) := by
  have h := fetch_cache_freshness_c2 100 0 99 "d" (some ⟨"d", 0⟩) 5 7
  have h2 := fetch_cache_freshness_c2 100 0 100 "d" (some ⟨"d", 0⟩) 5 7
  exact ⟨h.1 (by decide), h2.2 (by decide)⟩

/-! ### Claim C3 - batch isolation -/

/-- C3 (the code at the claim's input): fetchBatch's failure handling
records a failed URL as the empty string in the result map rather than
omitting it, so the 10-source batch with one always-failing source yields
10 entries (not 9), the failing source mapped to ""; and the worker-slot
wait fetchBatch performs first - Promise.race over
semaphore.filter(p => p !== null) - races over an empty candidate list in
the initial all-null semaphore, a promise that never settles, so every
call of fetchBatch suspends forever before reaching that recording. -/
theorem fetchBatch_c3 :
    raceCandidates (initialSemaphore 5) = [] ∧
    (fetchBatchResults exBatch10).length = 10 ∧
    (fetchBatchResults exBatch10).lookup "u9" = some "" ∧
    ¬ (fetchBatchResults exBatch10).length = 9 ∧
    (fetchBatchResults exBatch10).lookup "u0" = some "d0" := by
  refine ⟨rfl, rfl, ?_, by decide, ?_⟩ <;> rfl

/-! ### Claim C4 - admission control -/

/-- C4 (counterexample to the claim as stated): checkResourceAvailability
reads the periodic metrics snapshot, not the live operation set.  With 100
live operations but a snapshot still reporting 0, a call at the ceiling is
admitted (the claim says it must be rejected); and after one of 100
operations completes, a call still sees the snapshot count of 100 and is
rejected (the claim says it returns true once an operation completes). -/
theorem checkResourceAvailability_counterexample_c4 :
    checkResourceAvailability ⟨100, ⟨0, 0⟩⟩ = true ∧
    (completeOperation ⟨100, ⟨0, 100⟩⟩).activeOperations = 99 ∧
    checkResourceAvailability (completeOperation ⟨100, ⟨0, 100⟩⟩) = false := by
  refine ⟨by decide, rfl, by decide⟩

/-- C4 (amended): checkResourceAvailability rejects whenever the metrics
snapshot reports a concurrent-operation count at or above the ceiling
(100) or a memory usage strictly above the ceiling (512 MB), so the
operation is rejected before it starts; and once one of the admitted
operations completes and the periodic updateMetrics has refreshed the
snapshot, a state that was at the concurrency ceiling admits again
(memory permitting). -/
theorem checkResourceAvailability_c4 (s : ResourceManagerState) (mem : ℚ) :
    (getResourceLimits.maxConcurrentOperations ≤ s.metrics.concurrentOperations →
      checkResourceAvailability s = false) ∧
    (getResourceLimits.maxMemoryUsage < s.metrics.memoryUsage →
      checkResourceAvailability s = false) ∧
    (s.activeOperations = getResourceLimits.maxConcurrentOperations →
      mem ≤ getResourceLimits.maxMemoryUsage →
      checkResourceAvailability (updateMetrics (completeOperation s) mem) = true) := by
  refine ⟨?_, ?_, ?_⟩
  · intro hops
    simp only [checkResourceAvailability]
    have : s.metrics.concurrentOperations ≥ getResourceLimits.maxConcurrentOperations := hops
    split <;> simp [this]
  · intro hmem
    simp only [checkResourceAvailability]
    simp [hmem]
  · intro hops hmem
    simp only [checkResourceAvailability, updateMetrics, completeOperation]
    have h1 : ¬ (mem > getResourceLimits.maxMemoryUsage) := by exact not_lt.mpr hmem
    have h2 : ¬ (s.activeOperations - 1 ≥ getResourceLimits.maxConcurrentOperations) := by
      simp only [getResourceLimits] at hops ⊢
      omega
    simp [h1, h2]

/-- C4 witness: a snapshot at the concurrency ceiling is rejected, one
over the memory ceiling is rejected, and after a completion plus a metrics
refresh (memory at 0 MB) the ceiling state is admitted again. -/
theorem checkResourceAvailability_c4_witness :
    checkResourceAvailability ⟨100, ⟨0, 100⟩⟩ = false ∧
    checkResourceAvailability ⟨100, ⟨513, 50⟩⟩ = false ∧
    checkResourceAvailability (updateMetrics (completeOperation ⟨100, ⟨0, 100⟩⟩) 0) = true := by
  have h1 := checkResourceAvailability_c4 ⟨100, ⟨0, 100⟩⟩ 0
  have h2 := checkResourceAvailability_c4 ⟨100, ⟨513, 50⟩⟩ 0
  exact ⟨h1.1 (by decide), h2.2.1 (by decide), h1.2.2 (by decide) (by decide)⟩

/-! ### Claim C5 - circuit breaker state machine -/

/-- C5: with failureThreshold 3 the breaker follows the stated state
machine.  Three consecutive failures in CLOSED (from a zeroed failure
count) open the breaker, recording the last failure time; while OPEN and
within resetTimeout of the last failure every call is rejected without
invoking the operation and without changing the state; once resetTimeout
has elapsed the next call moves the breaker to HALF_OPEN and is attempted;
three consecutive successes in HALF_OPEN close the breaker and reset both
counters; and any single failure in HALF_OPEN reopens the breaker and
resets the half-open success counter. -/
theorem circuitBreaker_state_machine_c5 (rt : Nat) :
    (∀ (lft : Option Nat) (t1 t2 t3 : Nat),
      (cbExecute ⟨3, rt⟩ ⟨.CLOSED, 0, 0, lft⟩ t1 false).1 =
        ⟨.CLOSED, 1, 0, some t1⟩ ∧
      (cbExecute ⟨3, rt⟩ ⟨.CLOSED, 1, 0, some t1⟩ t2 false).1 =
        ⟨.CLOSED, 2, 0, some t2⟩ ∧
      (cbExecute ⟨3, rt⟩ ⟨.CLOSED, 2, 0, some t2⟩ t3 false).1 =
        ⟨.OPEN, 3, 0, some t3⟩) ∧
    (∀ (fc sc t now : Nat) (b : Bool), now - t < rt →
      cbExecute ⟨3, rt⟩ ⟨.OPEN, fc, sc, some t⟩ now b =
        (⟨.OPEN, fc, sc, some t⟩, .rejectedOpen)) ∧
    (∀ (fc sc t now : Nat) (b : Bool), rt ≤ now - t →
      (cbExecute ⟨3, rt⟩ ⟨.OPEN, fc, sc, some t⟩ now b).2 = .attempted b) ∧
    (∀ (fc t now : Nat), rt ≤ now - t →
      (cbExecute ⟨3, rt⟩ ⟨.OPEN, fc, 0, some t⟩ now true).1 =
        ⟨.HALF_OPEN, 0, 1, some t⟩) ∧
    (∀ (fc : Nat) (lft : Option Nat) (t1 t2 t3 : Nat),
      (cbExecute ⟨3, rt⟩ ⟨.HALF_OPEN, fc, 0, lft⟩ t1 true).1 =
        ⟨.HALF_OPEN, 0, 1, lft⟩ ∧
      (cbExecute ⟨3, rt⟩ ⟨.HALF_OPEN, 0, 1, lft⟩ t2 true).1 =
        ⟨.HALF_OPEN, 0, 2, lft⟩ ∧
      (cbExecute ⟨3, rt⟩ ⟨.HALF_OPEN, 0, 2, lft⟩ t3 true).1 =
        ⟨.CLOSED, 0, 0, lft⟩) ∧
    (∀ (fc sc : Nat) (lft : Option Nat) (now : Nat),
      cbExecute ⟨3, rt⟩ ⟨.HALF_OPEN, fc, sc, lft⟩ now false =
        (⟨.OPEN, fc + 1, 0, some now⟩, .attempted false)) := by
  refine ⟨?_, ?_, ?_, ?_, ?_, ?_⟩
  · intro lft t1 t2 t3
    refine ⟨?_, ?_, ?_⟩ <;> simp [cbExecute, onFailure]
  · intro fc sc t now b hlt
    have : ¬ (rt ≤ now - t) := by omega
    simp [cbExecute, shouldAttemptReset, this]
  · intro fc sc t now b hge
    cases b <;> simp [cbExecute, shouldAttemptReset, hge, onSuccess, onFailure]
  · intro fc t now hge
    simp [cbExecute, shouldAttemptReset, hge, onSuccess]
  · intro fc lft t1 t2 t3
    refine ⟨?_, ?_, ?_⟩ <;> simp [cbExecute, onSuccess]
  · intro fc sc lft now
    simp [cbExecute, onFailure]

/-- C5 witness: resetTimeout 50.  Three failures at t = 0, 1, 2 open the
breaker; a call at t = 40 is rejected without invoking the operation; the
call at t = 60 moves to HALF_OPEN and succeeds; a half-open failure at
t = 70 reopens the breaker with the success counter reset. -/
theorem circuitBreaker_state_machine_c5_witness :
    (cbExecute ⟨3, 50⟩ ⟨.CLOSED, 2, 0, some 1⟩ 2 false).1 =
      ⟨.OPEN, 3, 0, some 2⟩ ∧
    cbExecute ⟨3, 50⟩ ⟨.OPEN, 3, 0, some 2⟩ 40 true =
      (⟨.OPEN, 3, 0, some 2⟩, .rejectedOpen) ∧
    (cbExecute ⟨3, 50⟩ ⟨.OPEN, 3, 0, some 2⟩ 60 true).1 =
      ⟨.HALF_OPEN, 0, 1, some 2⟩ ∧
    cbExecute ⟨3, 50⟩ ⟨.HALF_OPEN, 0, 1, some 2⟩ 70 false =
      (⟨.OPEN, 1, 0, some 70⟩, .attempted false) := by
  have h := circuitBreaker_state_machine_c5 50
  exact ⟨((h.1 (some 1) 0 1 2).2.2 : _),
    h.2.1 3 0 2 40 true (by decide),
    h.2.2.2.1 3 2 60 (by decide),
    h.2.2.2.2.2 0 1 (some 2) 70⟩

/-! ### Claim C7 - memory manager per-entry TTL -/

/-- C7 (the code at the failing input): setCache receives ttl = 1000 ms at
time 0 but stores no ttl, and getCache at time 2000 - an age of 2000 ms,
well past the requested ttl - still returns the stored value, because
expiry is tested against the fixed maxCacheAge (30 minutes), not the ttl
passed to setCache; only past maxCacheAge does getCache delete the entry
and return absent. -/
theorem memoryManager_ttl_ignored_c7 :
    1000 < 2000 - 0 ∧
    (getCache 2000 (some (setCacheEntry 0 "v" 1 1000))).1 = some "v" ∧
    (getCache (maxCacheAge + 1) (some (setCacheEntry 0 "v" 1 1000))).1 = none ∧
    (getCache (maxCacheAge + 1) (some (setCacheEntry 0 "v" 1 1000))).2 = none := by
  refine ⟨by decide, ?_, ?_, ?_⟩ <;> decide

/-! ### Claim C8 - non-retryable error classes -/

/-- C8: the circuit-open, rate-limited, resource-exhausted and
operation-timeout errors are all thrown with retryable = false, so
shouldRetry rejects them under every retry configuration; consequently,
whichever attempt such an error occurs on, the retry loop rethrows it at
that attempt with no backoff sleep and no further attempts. -/
theorem retry_surfaces_immediately_c8 {α : Type} (cfg : RetryConfig)
    (op : Nat → Except JsError α) (rand : Nat → ℚ) (attempt fuel : Nat)
    (e : JsError)
    (he : e = circuitOpenError ∨ e = rateLimitedError ∨
      e = resourceExhaustedError ∨ e = operationTimeoutError)
    (hop : op attempt = .error e) :
    shouldRetry cfg e = false ∧
    retryExecuteFrom cfg op rand attempt (fuel + 1) = (.error e, attempt, []) := by
  have hsr : shouldRetry cfg e = false := by
    rcases he with h | h | h | h <;> subst h <;>
      simp [shouldRetry, circuitOpenError, rateLimitedError,
        resourceExhaustedError, operationTimeoutError]
  refine ⟨hsr, ?_⟩
  simp only [retryExecuteFrom, hop]
  by_cases hmax : attempt = cfg.maxAttempts
  · simp [hmax]
  · simp [hmax, hsr]

/-- C8 witness: under the default retry configuration, an operation that
fails with the circuit-open error on attempt 1 is rethrown from attempt 1
with no sleeps, and likewise the operation-timeout error is classified
non-retryable. -/
theorem retry_surfaces_immediately_c8_witness :
    shouldRetry defaultRetryConfig circuitOpenError = false ∧
    retryExecuteFrom defaultRetryConfig
      (fun _ => (.error circuitOpenError : Except JsError Nat)) (fun _ => 0) 1 3 =
      (.error circuitOpenError, 1, []) ∧
    shouldRetry defaultRetryConfig operationTimeoutError = false := by
  have h := retry_surfaces_immediately_c8 (α := Nat) defaultRetryConfig
    (fun _ => .error circuitOpenError) (fun _ => 0) 1 2 circuitOpenError
    (Or.inl rfl) rfl
  have h2 := retry_surfaces_immediately_c8 (α := Nat) defaultRetryConfig
    (fun _ => .error operationTimeoutError) (fun _ => 0) 1 2 operationTimeoutError
    (Or.inr (Or.inr (Or.inr rfl))) rfl
  exact ⟨h.1, h.2, h2.1⟩

/-! ### Claim C9 - retry backoff -/

/-- C9: under any configuration with jitter enabled, calculateDelay is the
pre-jitter delay min(baseDelay * multiplier ^ (attempt - 1), maxDelay)
with the symmetric 25-percent jitter term added and the result floored;
for baseDelay 1000, multiplier 2, maxDelay 10000 the pre-jitter delays of
attempts 1..4 are 1000, 2000, 4000, 8000, every attempt from 5 on is
clamped at 10000, and the pre-jitter sequence is monotonically
non-decreasing. -/
theorem retry_backoff_c9 (a b : Nat) (r : ℚ) :
    (∀ cfg : RetryConfig, cfg.jitter = true →
      calculateDelay cfg a r =
        Int.floor (preJitterDelay cfg a +
          preJitterDelay cfg a * (1/4) * (2 * r - 1))) ∧
    (∀ cfg : RetryConfig, preJitterDelay cfg a =
      min (cfg.baseDelay * cfg.backoffMultiplier ^ (a - 1)) cfg.maxDelay) ∧
    preJitterDelay backoffTestConfig 1 = 1000 ∧
    preJitterDelay backoffTestConfig 2 = 2000 ∧
    preJitterDelay backoffTestConfig 3 = 4000 ∧
    preJitterDelay backoffTestConfig 4 = 8000 ∧
    (5 ≤ a → preJitterDelay backoffTestConfig a = 10000) ∧
    (a ≤ b → preJitterDelay backoffTestConfig a ≤ preJitterDelay backoffTestConfig b) := by
  refine ⟨?_, fun _ => rfl, ?_, ?_, ?_, ?_, ?_, ?_⟩
  · intro cfg hj
    simp [calculateDelay, preJitterDelay, hj]
  · norm_num [preJitterDelay, backoffTestConfig]
  · norm_num [preJitterDelay, backoffTestConfig]
  · norm_num [preJitterDelay, backoffTestConfig]
  · norm_num [preJitterDelay, backoffTestConfig]
  · intro ha
    have h4 : (2 : ℚ) ^ (4 : Nat) ≤ 2 ^ (a - 1) :=
      pow_le_pow_right₀ (by norm_num) (by omega)
    have hbig : (10000 : ℚ) ≤ 1000 * 2 ^ (a - 1) := by nlinarith
    simp only [preJitterDelay, backoffTestConfig]
    exact min_eq_right hbig
  · intro hab
    have hpow : (2 : ℚ) ^ (a - 1) ≤ 2 ^ (b - 1) :=
      pow_le_pow_right₀ (by norm_num) (by omega)
    have hmul : (1000 : ℚ) * 2 ^ (a - 1) ≤ 1000 * 2 ^ (b - 1) := by nlinarith
    simp only [preJitterDelay, backoffTestConfig]
    exact min_le_min hmul le_rfl

/-- C9 witness: attempt 5 is clamped at 10000, attempt 2 is no larger than
attempt 6, and with the central jitter draw r = 1/2 the computed delay of
attempt 2 is exactly its pre-jitter value 2000. -/
theorem retry_backoff_c9_witness :
    preJitterDelay backoffTestConfig 5 = 10000 ∧
    preJitterDelay backoffTestConfig 2 ≤ preJitterDelay backoffTestConfig 6 ∧
    calculateDelay backoffTestConfig 2 (1/2) = 2000 := by
  have h := retry_backoff_c9 5 6 (1/2)
  have h2 := retry_backoff_c9 2 6 (1/2)
  refine ⟨h.2.2.2.2.2.2.1 (by decide), h2.2.2.2.2.2.2.2 (by decide), ?_⟩
  rw [h2.1 backoffTestConfig rfl]
  norm_num [preJitterDelay, backoffTestConfig]
